import Mathlib

/-!
Verification of the ds-runtime core: a shallow embedding of the request
model, the CPU backend (src/ds_runtime.cpp), the io_uring backend
(src/ds_runtime_uring.cpp), the Vulkan GPU-staging backend
(src/ds_runtime_vulkan.cpp) and the queue (Queue::Impl in
src/ds_runtime.cpp), together with theorems about validation order,
completion accounting and the result-field invariants.

Pointers are modelled as an abstract address type with an explicit null;
syscall outcomes (pread/pwrite, io_uring completions, Vulkan calls) are
modelled as explicit outcome values handed to the embedded code, since the
embedding cannot perform I/O. Diagnostics are modelled as the ErrorContext
records that report_error / report_request_error build
(src/ds_runtime_logging.cpp); the wall-clock timestamp and source-location
fields are omitted as they carry no program logic.
-/

namespace DsRuntime

/-- Operation type for a Request (include/ds_runtime.hpp, enum RequestOp). -/
inductive RequestOp
  | read
  | write
  deriving Repr, DecidableEq

/-- Memory location for request buffers (enum RequestMemory). -/
inductive RequestMemory
  | host
  | gpu
  deriving Repr, DecidableEq

/-- Compression mode (enum Compression). The header declares None and
FakeUppercase; the io_uring backend additionally references a GDeflate
mode, included here so its rejection path can be embedded. -/
inductive Compression
  | none
  | fakeUppercase
  | gdeflate
  deriving Repr, DecidableEq

/-- Status of a Request after execution (enum RequestStatus). -/
inductive RequestStatus
  | pending
  | ok
  | ioError
  deriving Repr, DecidableEq

/-- A host or device pointer: null or some abstract address. -/
inductive Ptr
  | null
  | addr (a : Nat)
  deriving Repr, DecidableEq

/-- errno constants as on Linux. -/
def EBADF : Int := 9

def EINVAL : Int := 22

def ENOMEM : Int := 12

def EIO : Int := 5

def EBUSY : Int := 16

def ENOTSUP : Int := 95

/-- struct Request (include/ds_runtime.hpp lines 392-407), with the
member defaults of the header. `bytes_transferred` is used by the
implementation files (and by the spec data model) although the checked-in
header revision omits its declaration; it is carried here with the
zero default the implementation relies on. -/
structure Request where
  fd : Int := -1
  offset : Nat := 0
  size : Nat := 0
  dst : Ptr := Ptr.null
  src : Ptr := Ptr.null
  gpu_buffer : Ptr := Ptr.null
  gpu_offset : Nat := 0
  op : RequestOp := RequestOp.read
  dst_memory : RequestMemory := RequestMemory.host
  src_memory : RequestMemory := RequestMemory.host
  compression : Compression := Compression.none
  status : RequestStatus := RequestStatus.pending
  errno_value : Int := 0
  bytes_transferred : Nat := 0
  deriving Repr, DecidableEq

/-- A default-initialized (uninitialized) Request: every field takes the
header default. -/
def defaultRequest : Request := {}

/-- struct ErrorContext as report_error / report_request_error fill it
(src/ds_runtime_logging.cpp): value-initialized, then the subsystem,
operation, detail and errno fields are set, and for request errors the
request snapshot fields with has_request = true. Timestamp and
file/line/function are omitted from the embedding. -/
structure ErrorContext where
  subsystem : String := ""
  operation : String := ""
  detail : String := ""
  errno_value : Int := 0
  has_request : Bool := false
  fd : Int := 0
  offset : Nat := 0
  size : Nat := 0
  op : RequestOp := RequestOp.read
  src_memory : RequestMemory := RequestMemory.host
  dst_memory : RequestMemory := RequestMemory.host
  deriving Repr, DecidableEq

/-- report_error (src/ds_runtime_logging.cpp): a diagnostic without a
request snapshot. -/
def report_error (subsystem operation detail : String) (errno_value : Int) :
    ErrorContext :=
  { subsystem := subsystem, operation := operation, detail := detail,
    errno_value := errno_value }

/-- report_request_error (src/ds_runtime_logging.cpp): a diagnostic
carrying the request snapshot (fd, offset, size, op, src_memory,
dst_memory). -/
def report_request_error (subsystem operation detail : String)
    (request : Request) (errno_value : Int) : ErrorContext :=
  { subsystem := subsystem, operation := operation, detail := detail,
    errno_value := errno_value, has_request := true,
    fd := request.fd, offset := request.offset, size := request.size,
    op := request.op, src_memory := request.src_memory,
    dst_memory := request.dst_memory }

/-! ## CPU backend (src/ds_runtime.cpp, CpuBackend::submit) -/

/-- The validation chain at the head of the CPU worker job
(src/ds_runtime.cpp lines 182-266): the first failing check decides the
errno and the diagnostic; `none` when every check passes. -/
def cpuValidate (req : Request) : Option (Int × ErrorContext) :=
  if req.fd < 0 then
    some (EBADF,
      report_request_error "cpu" "submit" "Invalid file descriptor" req EBADF)
  else if req.size = 0 then
    some (EINVAL,
      report_request_error "cpu" "submit" "Zero-length request is not allowed"
        req EINVAL)
  else if req.op = RequestOp.read ∧ req.dst = Ptr.null then
    some (EINVAL,
      report_request_error "cpu" "submit"
        "Read request missing destination buffer" req EINVAL)
  else if req.op = RequestOp.write ∧ req.src = Ptr.null then
    some (EINVAL,
      report_request_error "cpu" "submit" "Write request missing source buffer"
        req EINVAL)
  else if (req.op = RequestOp.read ∧ req.dst_memory = RequestMemory.gpu) ∨
      (req.op = RequestOp.write ∧ req.src_memory = RequestMemory.gpu) then
    some (EINVAL,
      report_request_error "cpu" "submit" "GPU memory requested on CPU backend"
        req EINVAL)
  else
    none

/-- Outcome of the positional pread/pwrite syscall: success with the bytes
actually moved (for a read, the data; for a write, only the count matters)
or failure with the errno the syscall set. -/
inductive Outcome
  | ok (data : List Nat)
  | err (e : Int)
  deriving Repr, DecidableEq

/-- POSIX conformance of a syscall outcome for a request: a successful
transfer moves at most `size` bytes, a failing one sets a positive errno. -/
def posixOk (req : Request) (res : Outcome) : Prop :=
  match res with
  | Outcome.ok data => data.length ≤ req.size
  | Outcome.err e => 0 < e

/-- ASCII toupper in the C locale: bytes in [97, 122] lose 32, all other
bytes are unchanged (std::toupper on an unsigned char). -/
def toUpperByte (b : Nat) : Nat :=
  if 97 ≤ b ∧ b ≤ 122 then b - 32 else b

/-- The FakeUppercase loop body (src/ds_runtime.cpp lines 327-333):
`for (i = 0; i < size && c[i] != 0; ++i) c[i] = toupper(c[i])`, acting on
the first `size` cells of the buffer and stopping at the first NUL. -/
def applyUpper : Nat → List Nat → List Nat
  | 0, buf => buf
  | _ + 1, [] => []
  | n + 1, b :: rest =>
      if b = 0 then b :: rest else toUpperByte b :: applyUpper n rest

/-- The decompression pass (src/ds_runtime.cpp lines 323-333): applied only
when the request is a Read that completed Ok with FakeUppercase. -/
def transformStage (req : Request) (buf : List Nat) : List Nat :=
  if req.op = RequestOp.read ∧ req.status = RequestStatus.ok ∧
      req.compression = Compression.fakeUppercase then
    applyUpper req.size buf
  else
    buf

/-- Writing the bytes a read returned into the front of the destination
buffer. -/
def writeBytes (buf data : List Nat) : List Nat :=
  data ++ buf.drop data.length

/-- The I/O and result-recording stage of the CPU worker job
(src/ds_runtime.cpp lines 268-316): on failure record errno and zero
bytes_transferred with a diagnostic; on success record the count, and for a
short read NUL-terminate the destination at index n. -/
def cpuIoStage (req : Request) (res : Outcome) (buf : List Nat) :
    Request × List Nat × List ErrorContext :=
  match res with
  | Outcome.err e =>
      ({ req with
          status := RequestStatus.ioError, errno_value := e,
          bytes_transferred := 0 },
       buf,
       [report_request_error "cpu"
          (if req.op = RequestOp.write then "pwrite" else "pread")
          "POSIX I/O failed" req e])
  | Outcome.ok data =>
      let req1 := { req with
        status := RequestStatus.ok, errno_value := 0,
        bytes_transferred := data.length }
      if req.op = RequestOp.read then
        let buf1 := writeBytes buf data
        let buf2 := if data.length < req.size then buf1.set data.length 0 else buf1
        (req1, buf2, [])
      else
        (req1, buf, [])

/-- One whole CPU worker job (CpuBackend::submit, src/ds_runtime.cpp lines
178-343): validate, then perform I/O, then the transform stage. Returns the
completed request, the destination buffer contents and the diagnostics
reported. The validation failure paths set status and errno but leave
bytes_transferred untouched, exactly as the source does. -/
def cpuJob (req : Request) (res : Outcome) (buf : List Nat) :
    Request × List Nat × List ErrorContext :=
  match cpuValidate req with
  | some (e, ctx) =>
      ({ req with status := RequestStatus.ioError, errno_value := e }, buf, [ctx])
  | none =>
      let t := cpuIoStage req res buf
      (t.1, transformStage t.1 t.2.1, t.2.2)

/-- Positional read from a file with the given contents: the bytes a
pread of `n` bytes at `off` returns on a regular file. -/
def preadData (file : List Nat) (off n : Nat) : List Nat :=
  (file.drop off).take n

/-! ## Queue (Queue::Impl in src/ds_runtime.cpp) -/

/-- The observable state of Queue::Impl: pending and completed lists, the
in-flight counter and the three statistics counters (src/ds_runtime.cpp
lines 493-505). -/
structure QueueState where
  pending : List Request := []
  completed : List Request := []
  in_flight : Nat := 0
  total_completed : Nat := 0
  total_failed : Nat := 0
  total_bytes_transferred : Nat := 0
  deriving Repr, DecidableEq

/-- Queue::Impl::enqueue: push the request onto the pending list. -/
def enqueue (s : QueueState) (req : Request) : QueueState :=
  { s with pending := s.pending ++ [req] }

/-- The per-request increment in Queue::Impl::submit_all
(src/ds_runtime.cpp line 423): `in_flight_.fetch_add(1)` before the request
is handed to the backend. -/
def submitIncrement (s : QueueState) : QueueState :=
  { s with in_flight := s.in_flight + 1 }

/-- The queue-owned completion closure (src/ds_runtime.cpp lines 427-455):
append the completed request to the completed list, bump total_completed,
bump total_failed when the status is not Ok, add the bytes transferred, and
decrement the in-flight counter. -/
def completionCallback (s : QueueState) (completed_req : Request) : QueueState :=
  { s with
    completed := s.completed ++ [completed_req],
    total_completed := s.total_completed + 1,
    total_failed := s.total_failed +
      (if completed_req.status ≠ RequestStatus.ok then 1 else 0),
    total_bytes_transferred :=
      s.total_bytes_transferred + completed_req.bytes_transferred,
    in_flight := s.in_flight - 1 }

/-- Queue::Impl::take_completed (src/ds_runtime.cpp lines 484-489): swap
the completed list out and return it. -/
def take_completed (s : QueueState) : List Request × QueueState :=
  (s.completed, { s with completed := [] })

/-! ## io_uring backend (src/ds_runtime_uring.cpp) -/

/-- The flags the IoUringBackend constructor leaves behind
(src/ds_runtime_uring.cpp lines 24-41): whether initialization failed and
whether the worker thread was started. -/
structure UringBackendState where
  initFailed : Bool
  workerStarted : Bool
  deriving Repr, DecidableEq

/-- IoUringBackend::IoUringBackend: a nonzero io_uring_queue_init return
marks the backend permanently failed and the worker thread is never
started; on success the worker starts. -/
def uringInit (init_rc : Int) : UringBackendState :=
  if init_rc ≠ 0 then
    { initFailed := true, workerStarted := false }
  else
    { initFailed := false, workerStarted := true }

/-- What IoUringBackend::submit does with a request: completes it on the
spot (with a diagnostic) or enqueues it for the worker thread. -/
inductive UringSubmitResult
  | done (r : Request) (ctx : ErrorContext)
  | queued (r : Request)
  deriving Repr, DecidableEq

/-- IoUringBackend::submit (src/ds_runtime_uring.cpp lines 60-139):
init-failed backends, GPU-memory requests, compressed writes and GDeflate
reads complete immediately with a diagnostic; everything else goes to the
pending FIFO. -/
def uringSubmit (initFailed : Bool) (req : Request) : UringSubmitResult :=
  if initFailed then
    UringSubmitResult.done
      { req with
        status := RequestStatus.ioError, errno_value := EINVAL,
        bytes_transferred := 0 }
      (report_request_error "io_uring" "submit" "Backend initialization failed"
        req EINVAL)
  else if (req.op = RequestOp.read ∧ req.dst_memory = RequestMemory.gpu) ∨
      (req.op = RequestOp.write ∧ req.src_memory = RequestMemory.gpu) then
    UringSubmitResult.done
      { req with
        status := RequestStatus.ioError, errno_value := EINVAL,
        bytes_transferred := 0 }
      (report_request_error "io_uring" "submit"
        "GPU memory requested on io_uring backend" req EINVAL)
  else if req.op = RequestOp.write ∧ req.compression ≠ Compression.none then
    UringSubmitResult.done
      { req with
        status := RequestStatus.ioError, errno_value := ENOTSUP,
        bytes_transferred := 0 }
      (report_request_error "io_uring" "submit"
        "Compression is not supported for write requests" req ENOTSUP)
  else if req.op = RequestOp.read ∧ req.compression = Compression.gdeflate then
    UringSubmitResult.done
      { req with
        status := RequestStatus.ioError, errno_value := ENOTSUP,
        bytes_transferred := 0 }
      (report_request_error "io_uring" "submit" "GDeflate is not implemented yet"
        req ENOTSUP)
  else
    UringSubmitResult.queued req

/-- Whether a submission was enqueued to the worker thread. -/
def isQueued : UringSubmitResult → Bool
  | UringSubmitResult.queued _ => true
  | UringSubmitResult.done _ _ => false

/-- The worker-loop path when io_uring_get_sqe returns no slot
(src/ds_runtime_uring.cpp lines 167-184): complete with EBUSY and a
diagnostic. -/
def uringSqeExhausted (req : Request) : Request × ErrorContext :=
  ({ req with
      status := RequestStatus.ioError, errno_value := EBUSY,
      bytes_transferred := 0 },
   report_request_error "io_uring" "io_uring_get_sqe" "Submission queue is full"
     req EBUSY)

/-- The CQE result mapping in IoUringBackend::worker_loop
(src/ds_runtime_uring.cpp lines 232-247): negative res becomes
IoError(-res) with zero bytes; non-negative res becomes Ok with res bytes. -/
def uringCqeComplete (req : Request) (res : Int) : Request :=
  if res < 0 then
    { req with
      status := RequestStatus.ioError, errno_value := -res,
      bytes_transferred := 0 }
  else
    { req with
      status := RequestStatus.ok, errno_value := 0,
      bytes_transferred := res.toNat }

/-! ## Vulkan GPU-staging backend (src/ds_runtime_vulkan.cpp)

The repository carries the GPU-staging backend in two revisions; the full
one (with the submit-time validation chain and diagnostics on every
failure path) is the one embedded here. Vulkan call results are supplied
as explicit outcome values. Each handler also returns the trace of the
externally visible steps it performed, in order. -/

/-- The validation chain at the head of VulkanBackend::submit: the same
first four checks as the CPU backend, with the missing-buffer checks
conditioned on the corresponding memory side being Host (the symmetric
GPU rules); there is no GPU-memory rejection. -/
def vulkanValidate (req : Request) : Option (Int × ErrorContext) :=
  if req.fd < 0 then
    some (EBADF,
      report_request_error "vulkan" "submit" "Invalid file descriptor" req EBADF)
  else if req.size = 0 then
    some (EINVAL,
      report_request_error "vulkan" "submit" "Zero-length request is not allowed"
        req EINVAL)
  else if req.op = RequestOp.read ∧ req.dst_memory = RequestMemory.host ∧
      req.dst = Ptr.null then
    some (EINVAL,
      report_request_error "vulkan" "submit"
        "Read request missing destination buffer" req EINVAL)
  else if req.op = RequestOp.write ∧ req.src_memory = RequestMemory.host ∧
      req.src = Ptr.null then
    some (EINVAL,
      report_request_error "vulkan" "submit" "Write request missing source buffer"
        req EINVAL)
  else
    none

/-- Outcome of an attempted staging-buffer allocation
(VulkanBackend::create_staging_buffer), naming which internal step failed
(each failure reports its own diagnostic inside the function). -/
inductive StagingOutcome
  | success
  | createBufferFailed
  | noMemoryType
  | allocFailed
  deriving Repr, DecidableEq

/-- VulkanBackend::create_staging_buffer: true plus no diagnostic on
success; false plus the failing step diagnostic otherwise. -/
def create_staging_buffer (o : StagingOutcome) : Bool × List ErrorContext :=
  match o with
  | StagingOutcome.success => (true, [])
  | StagingOutcome.createBufferFailed =>
      (false, [report_error "vulkan" "vkCreateBuffer"
        "Failed to create staging buffer" EIO])
  | StagingOutcome.noMemoryType =>
      (false, [report_error "vulkan" "find_memory_type"
        "No suitable memory type for staging buffer" ENOMEM])
  | StagingOutcome.allocFailed =>
      (false, [report_error "vulkan" "vkAllocateMemory"
        "Failed to allocate staging buffer memory" ENOMEM])

/-- Results of the Vulkan calls VulkanBackend::submit_copy makes, in the
order the source makes them. -/
structure CopyEnv where
  poolAndQueueOk : Bool := true
  cmdAllocOk : Bool := true
  beginOk : Bool := true
  endOk : Bool := true
  fenceCreateOk : Bool := true
  queueSubmitOk : Bool := true
  fenceWaitOk : Bool := true
  deriving Repr, DecidableEq

/-- The bounded fence-wait timeout VulkanBackend::submit_copy passes to
vkWaitForFences: 1'000'000'000 nanoseconds, one second. -/
def fenceWaitTimeoutNanos : Nat := 1000000000

/-- VulkanBackend::submit_copy: every setup failure reports a diagnostic
and returns false; a failing vkWaitForFences (timeout included) reports a
diagnostic but the function still returns true, exactly as the source
does. -/
def submit_copy (env : CopyEnv) : Bool × List ErrorContext :=
  if ¬ env.poolAndQueueOk then
    (false, [report_error "vulkan" "submit_copy"
      "Command pool or queue not initialized" EINVAL])
  else if ¬ env.cmdAllocOk then
    (false, [report_error "vulkan" "vkAllocateCommandBuffers"
      "Failed to allocate command buffer" EIO])
  else if ¬ env.beginOk then
    (false, [report_error "vulkan" "vkBeginCommandBuffer"
      "Failed to begin command buffer" EIO])
  else if ¬ env.endOk then
    (false, [report_error "vulkan" "vkEndCommandBuffer"
      "Failed to end command buffer" EIO])
  else if ¬ env.fenceCreateOk then
    (false, [report_error "vulkan" "vkCreateFence" "Failed to create fence" EIO])
  else if ¬ env.queueSubmitOk then
    (false, [report_error "vulkan" "vkQueueSubmit" "Queue submission failed" EIO])
  else if ¬ env.fenceWaitOk then
    (true, [report_error "vulkan" "vkWaitForFences" "Fence wait failed" EIO])
  else
    (true, [])

/-- Outcome of a bare positional syscall where only the count matters. -/
inductive SysResult
  | ok (n : Nat)
  | err (e : Int)
  deriving Repr, DecidableEq

/-- POSIX conformance for a count-only syscall outcome: a failure sets a
positive errno. -/
def sysOk (r : SysResult) : Prop :=
  match r with
  | SysResult.ok _ => True
  | SysResult.err e => 0 < e

/-- The environment a Vulkan request executes against: device
initialization, the staging allocation outcome, the map outcome, the copy
submission outcomes and the host I/O outcomes. -/
structure VkEnv where
  deviceOk : Bool := true
  staging : StagingOutcome := StagingOutcome.success
  mapOk : Bool := true
  copy : CopyEnv := {}
  hostRead : SysResult := SysResult.ok 0
  hostWrite : SysResult := SysResult.ok 0
  deriving Repr, DecidableEq

/-- The externally visible steps a Vulkan handler performs. `deviceCopy`
records that submit_copy was invoked. -/
inductive VkStep
  | stagingAlloc
  | mapMemory
  | fileRead
  | fileWrite
  | deviceCopy
  deriving Repr, DecidableEq

/-- VulkanBackend::handle_file_to_gpu: null gpu_buffer check first, then
staging allocation, map, positional read, device copy. The completed
request, the diagnostics and the step trace (in source order). The
request's bytes_transferred is never written, as in the source. -/
def handle_file_to_gpu (req : Request) (env : VkEnv) :
    Request × List ErrorContext × List VkStep :=
  if req.gpu_buffer = Ptr.null then
    ({ req with status := RequestStatus.ioError, errno_value := EINVAL },
     [report_request_error "vulkan" "file_to_gpu" "GPU buffer handle is null"
        req EINVAL],
     [])
  else
    let sb := create_staging_buffer env.staging
    if ¬ sb.1 then
      ({ req with status := RequestStatus.ioError, errno_value := ENOMEM },
       sb.2 ++ [report_request_error "vulkan" "create_staging_buffer"
          "Failed to allocate staging buffer" req ENOMEM],
       [VkStep.stagingAlloc])
    else if ¬ env.mapOk then
      ({ req with status := RequestStatus.ioError, errno_value := EIO },
       [report_request_error "vulkan" "vkMapMemory"
          "Failed to map staging buffer memory" req EIO],
       [VkStep.stagingAlloc, VkStep.mapMemory])
    else
      match env.hostRead with
      | SysResult.err e =>
          ({ req with status := RequestStatus.ioError, errno_value := e },
           [report_request_error "vulkan" "pread"
              "Failed to read file into staging buffer" req e],
           [VkStep.stagingAlloc, VkStep.mapMemory, VkStep.fileRead])
      | SysResult.ok _ =>
          let sc := submit_copy env.copy
          if ¬ sc.1 then
            ({ req with status := RequestStatus.ioError, errno_value := EIO },
             sc.2 ++ [report_request_error "vulkan" "vkCmdCopyBuffer"
                "Failed to copy staging buffer to GPU buffer" req EIO],
             [VkStep.stagingAlloc, VkStep.mapMemory, VkStep.fileRead,
              VkStep.deviceCopy])
          else
            ({ req with status := RequestStatus.ok, errno_value := 0 },
             sc.2,
             [VkStep.stagingAlloc, VkStep.mapMemory, VkStep.fileRead,
              VkStep.deviceCopy])

/-- VulkanBackend::handle_gpu_to_file: null gpu_buffer check first, then
staging allocation, device copy, map, positional write. -/
def handle_gpu_to_file (req : Request) (env : VkEnv) :
    Request × List ErrorContext × List VkStep :=
  if req.gpu_buffer = Ptr.null then
    ({ req with status := RequestStatus.ioError, errno_value := EINVAL },
     [report_request_error "vulkan" "gpu_to_file" "GPU buffer handle is null"
        req EINVAL],
     [])
  else
    let sb := create_staging_buffer env.staging
    if ¬ sb.1 then
      ({ req with status := RequestStatus.ioError, errno_value := ENOMEM },
       sb.2 ++ [report_request_error "vulkan" "create_staging_buffer"
          "Failed to allocate staging buffer" req ENOMEM],
       [VkStep.stagingAlloc])
    else
      let sc := submit_copy env.copy
      if ¬ sc.1 then
        ({ req with status := RequestStatus.ioError, errno_value := EIO },
         sc.2 ++ [report_request_error "vulkan" "vkCmdCopyBuffer"
            "Failed to copy GPU buffer to staging buffer" req EIO],
         [VkStep.stagingAlloc, VkStep.deviceCopy])
      else if ¬ env.mapOk then
        ({ req with status := RequestStatus.ioError, errno_value := EIO },
         sc.2 ++ [report_request_error "vulkan" "vkMapMemory"
            "Failed to map staging buffer memory" req EIO],
         [VkStep.stagingAlloc, VkStep.deviceCopy, VkStep.mapMemory])
      else
        match env.hostWrite with
        | SysResult.err e =>
            ({ req with status := RequestStatus.ioError, errno_value := e },
             sc.2 ++ [report_request_error "vulkan" "pwrite"
                "Failed to write staging buffer to file" req e],
             [VkStep.stagingAlloc, VkStep.deviceCopy, VkStep.mapMemory,
              VkStep.fileWrite])
        | SysResult.ok _ =>
            ({ req with status := RequestStatus.ok, errno_value := 0 },
             sc.2,
             [VkStep.stagingAlloc, VkStep.deviceCopy, VkStep.mapMemory,
              VkStep.fileWrite])

/-- VulkanBackend::handle_host_io: plain positional I/O with no device
involvement; errno recorded on failure, Ok on success, bytes_transferred
untouched. -/
def handle_host_io (req : Request) (env : VkEnv) :
    Request × List ErrorContext × List VkStep :=
  match (if req.op = RequestOp.write then env.hostWrite else env.hostRead) with
  | SysResult.err e =>
      ({ req with status := RequestStatus.ioError, errno_value := e },
       [report_request_error "vulkan"
          (if req.op = RequestOp.write then "pwrite" else "pread")
          "Host I/O failed" req e],
       [if req.op = RequestOp.write then VkStep.fileWrite else VkStep.fileRead])
  | SysResult.ok _ =>
      ({ req with status := RequestStatus.ok, errno_value := 0 },
       [],
       [if req.op = RequestOp.write then VkStep.fileWrite else VkStep.fileRead])

/-- VulkanBackend::handle_request: uninitialized device or physical device
fails with EINVAL and a diagnostic; otherwise the request routes by
(op, memory side). -/
def vulkan_handle_request (req : Request) (env : VkEnv) :
    Request × List ErrorContext × List VkStep :=
  if ¬ env.deviceOk then
    ({ req with status := RequestStatus.ioError, errno_value := EINVAL },
     [report_request_error "vulkan" "handle_request"
        "Vulkan device not initialized" req EINVAL],
     [])
  else if req.op = RequestOp.write ∧ req.src_memory = RequestMemory.gpu then
    handle_gpu_to_file req env
  else if req.op = RequestOp.read ∧ req.dst_memory = RequestMemory.gpu then
    handle_file_to_gpu req env
  else
    handle_host_io req env

/-- One whole Vulkan worker job (VulkanBackend::submit): the validation
chain, then handle_request. -/
def vulkanJob (req : Request) (env : VkEnv) :
    Request × List ErrorContext × List VkStep :=
  match vulkanValidate req with
  | some (e, ctx) =>
      ({ req with status := RequestStatus.ioError, errno_value := e }, [ctx], [])
  | none => vulkan_handle_request req env

/-- The completed-request invariant of the spec data model: on Ok the
errno is zero and at most `size` bytes were recorded; on IoError no bytes
were recorded and the errno is nonzero. -/
def resultInvariant (r : Request) : Prop :=
  (r.status = RequestStatus.ok →
    r.errno_value = 0 ∧ r.bytes_transferred ≤ r.size) ∧
  (r.status = RequestStatus.ioError →
    r.bytes_transferred = 0 ∧ r.errno_value ≠ 0)

/-! ## Concrete inputs used by witnesses and examples -/

/-- The bytes of "lowercase text", a 14-byte file. -/
def lowercaseText : List Nat :=
  [108, 111, 119, 101, 114, 99, 97, 115, 101, 32, 116, 101, 120, 116]

/-- The bytes of "LOWERCASE TEXT". -/
def uppercaseText : List Nat :=
  [76, 79, 87, 69, 82, 67, 65, 83, 69, 32, 84, 69, 88, 84]

/-- The demo-transform read of the spec scenario: size 14, host read with
the FakeUppercase transform. -/
def demoReadRequest : Request :=
  { fd := 3
    offset := 0
    size := 14
    dst := Ptr.addr 1
    op := RequestOp.read
    compression := Compression.fakeUppercase }

/-- A well-formed host read used as a witness input. -/
def hostReadRequest : Request :=
  { fd := 3
    size := 4
    dst := Ptr.addr 1
    op := RequestOp.read }

/-- A File-to-GPU read with a non-null device buffer. -/
def fileToGpuRequest : Request :=
  { fd := 3
    size := 64
    op := RequestOp.read
    dst_memory := RequestMemory.gpu
    gpu_buffer := Ptr.addr 1 }

/-- A File-to-GPU read whose gpu_buffer handle is null. -/
def nullGpuReadRequest : Request :=
  { fd := 3
    size := 8
    op := RequestOp.read
    dst_memory := RequestMemory.gpu }

/-- A GPU-to-File write whose gpu_buffer handle is null. -/
def nullGpuWriteRequest : Request :=
  { fd := 3
    size := 8
    op := RequestOp.write
    src_memory := RequestMemory.gpu }

/-- The environment in which every Vulkan call succeeds except the fence
wait, which times out. -/
def fenceTimeoutEnv : VkEnv := { copy := { fenceWaitOk := false } }

/-! ## Helper lemmas -/

/-- A completed request with IoError status, zero bytes and nonzero errno
satisfies the result invariant. -/
theorem resultInvariant_ioError {r : Request}
    (h : r.status = RequestStatus.ioError) (hb : r.bytes_transferred = 0)
    (he : r.errno_value ≠ 0) : resultInvariant r := by
  constructor
  · intro hk
    rw [h] at hk
    exact absurd hk (by decide)
  · intro _
    exact ⟨hb, he⟩

/-- A completed request with Ok status, zero errno and bytes within the
size satisfies the result invariant. -/
theorem resultInvariant_ok {r : Request}
    (h : r.status = RequestStatus.ok) (he : r.errno_value = 0)
    (hb : r.bytes_transferred ≤ r.size) : resultInvariant r := by
  constructor
  · intro _
    exact ⟨he, hb⟩
  · intro hk
    rw [h] at hk
    exact absurd hk (by decide)

/-- The CPU validator only produces EBADF or EINVAL. -/
theorem cpuValidate_errno {r : Request} {e : Int} {ctx : ErrorContext}
    (h : cpuValidate r = some (e, ctx)) : e = EBADF ∨ e = EINVAL := by
  unfold cpuValidate at h
  split_ifs at h <;> simp_all

/-- The Vulkan validator only produces EBADF or EINVAL. -/
theorem vulkanValidate_errno {r : Request} {e : Int} {ctx : ErrorContext}
    (h : vulkanValidate r = some (e, ctx)) : e = EBADF ∨ e = EINVAL := by
  unfold vulkanValidate at h
  split_ifs at h <;> simp_all

/-! ## Claim theorems -/

/-- C1: For every request completed through the Queue, the completion
accounting holds: total_completed increases by exactly one, total_failed
increases by one if and only if the completed status is not Ok,
total_bytes_transferred increases by exactly the bytes transferred, and
the in-flight counter returns to its pre-submission value after the
completion runs; the completed request is retained. -/
theorem c1_queue_completion_accounting (s : QueueState) (r : Request) :
    (completionCallback (submitIncrement s) r).total_completed
      = s.total_completed + 1 ∧
    (completionCallback (submitIncrement s) r).total_failed
      = s.total_failed + (if r.status ≠ RequestStatus.ok then 1 else 0) ∧
    (completionCallback (submitIncrement s) r).total_bytes_transferred
      = s.total_bytes_transferred + r.bytes_transferred ∧
    (completionCallback (submitIncrement s) r).in_flight = s.in_flight ∧
    (completionCallback (submitIncrement s) r).completed
      = s.completed ++ [r] := by
  refine ⟨rfl, rfl, rfl, ?_, rfl⟩
  exact Nat.add_sub_cancel s.in_flight 1

/-- C9: take_completed is idempotent emptying: the first call returns all
accumulated completed records, the second returns the empty list, and
neither call changes the statistics counters or the in-flight count. -/
theorem c9_take_completed_idempotent (s : QueueState) :
    (take_completed s).1 = s.completed ∧
    (take_completed (take_completed s).2).1 = [] ∧
    (take_completed s).2.in_flight = s.in_flight ∧
    (take_completed s).2.total_completed = s.total_completed ∧
    (take_completed s).2.total_failed = s.total_failed ∧
    (take_completed s).2.total_bytes_transferred = s.total_bytes_transferred ∧
    (take_completed (take_completed s).2).2.in_flight = s.in_flight ∧
    (take_completed (take_completed s).2).2.total_completed
      = s.total_completed ∧
    (take_completed (take_completed s).2).2.total_failed = s.total_failed ∧
    (take_completed (take_completed s).2).2.total_bytes_transferred
      = s.total_bytes_transferred :=
  ⟨rfl, rfl, rfl, rfl, rfl, rfl, rfl, rfl, rfl, rfl⟩

/-- C8 counterexample: the default-initialized Request is zero-size, yet
the CPU backend completes it with errno EBADF, not EINVAL: the claim that
it fails the size check with EINVAL is false at this input. -/
theorem c8_counterexample :
    defaultRequest.size = 0 ∧
    (cpuJob defaultRequest (Outcome.ok []) []).1.status
      = RequestStatus.ioError ∧
    (cpuJob defaultRequest (Outcome.ok []) []).1.errno_value = EBADF ∧
    EBADF ≠ EINVAL := by
  refine ⟨rfl, rfl, rfl, ?_⟩
  decide

/-- C8 (amended): a default-initialized Request submitted to the CPU
backend is rejected by the validator, but by its first check: fd defaults
to -1, so the negative-fd check fires before the zero-size check and the
request completes with IoError and errno EBADF, whatever the I/O outcome
would have been. -/
theorem c8_default_request_rejected :
    defaultRequest.fd = -1 ∧
    defaultRequest.size = 0 ∧
    cpuValidate defaultRequest =
      some (EBADF,
        report_request_error "cpu" "submit" "Invalid file descriptor"
          defaultRequest EBADF) ∧
    (∀ (res : Outcome) (buf : List Nat),
      (cpuJob defaultRequest res buf).1.status = RequestStatus.ioError ∧
      (cpuJob defaultRequest res buf).1.errno_value = EBADF) := by
  refine ⟨rfl, rfl, by decide, ?_⟩
  intro res buf
  exact ⟨rfl, rfl⟩

/-- C6: when the ring initialization fails the backend is marked
permanently failed and the worker is never started; every request
submitted to a failed backend completes immediately (it is never queued)
with IoError, errno EINVAL, zero bytes transferred, and a diagnostic
carrying the request snapshot. -/
theorem c6_uring_init_failure (rc : Int) (req : Request) :
    (rc ≠ 0 →
      uringInit rc = { initFailed := true, workerStarted := false }) ∧
    isQueued (uringSubmit true req) = false ∧
    (∃ r2 ctx, uringSubmit true req = UringSubmitResult.done r2 ctx ∧
      r2.status = RequestStatus.ioError ∧
      r2.errno_value = EINVAL ∧
      r2.bytes_transferred = 0 ∧
      ctx.errno_value = EINVAL ∧
      ctx.has_request = true ∧
      ctx.fd = req.fd ∧
      ctx.offset = req.offset ∧
      ctx.size = req.size ∧
      ctx.op = req.op ∧
      ctx.src_memory = req.src_memory ∧
      ctx.dst_memory = req.dst_memory) := by
  refine ⟨fun h => by simp [uringInit, h], rfl, ?_⟩
  exact ⟨_, _, rfl, rfl, rfl, rfl, rfl, rfl, rfl, rfl, rfl, rfl, rfl, rfl⟩

/-- C6 witness: at init_rc = -1 and the default request, the init flags and
the immediate completion are as stated. -/
theorem c6_uring_init_failure_witness :
    uringInit (-1) = { initFailed := true, workerStarted := false } ∧
    isQueued (uringSubmit true defaultRequest) = false :=
  ⟨(c6_uring_init_failure (-1) defaultRequest).1 (by decide),
   (c6_uring_init_failure (-1) defaultRequest).2.1⟩

/-- C5 (the code as it stands): the device fence wait carries the bounded
one-second timeout and a failed fence wait is reported as a diagnostic,
but submit_copy still returns true, so a File-to-GPU request whose fence
wait times out completes with status Ok, not IoError. -/
theorem c5_fence_timeout_not_treated_as_failure :
    fenceWaitTimeoutNanos = 1000000000 ∧
    (submit_copy { fenceWaitOk := false }).1 = true ∧
    (submit_copy { fenceWaitOk := false }).2 =
      [report_error "vulkan" "vkWaitForFences" "Fence wait failed" EIO] ∧
    (handle_file_to_gpu fileToGpuRequest fenceTimeoutEnv).1.status
      = RequestStatus.ok ∧
    (handle_file_to_gpu fileToGpuRequest fenceTimeoutEnv).1.status
      ≠ RequestStatus.ioError ∧
    report_error "vulkan" "vkWaitForFences" "Fence wait failed" EIO
      ∈ (handle_file_to_gpu fileToGpuRequest fenceTimeoutEnv).2.1 := by
  refine ⟨rfl, rfl, rfl, rfl, by decide, ?_⟩
  decide

/-- C10: a request routed to the File-to-GPU or GPU-to-File path whose
gpu_buffer handle is null completes with IoError and errno EINVAL and a
diagnostic, with an empty step trace: no staging buffer is allocated, no
file I/O is performed and no device copy is submitted. -/
theorem c10_null_gpu_buffer_rejected (req : Request) (env : VkEnv) :
    (req.gpu_buffer = Ptr.null →
      handle_file_to_gpu req env =
        ({ req with status := RequestStatus.ioError, errno_value := EINVAL },
         [report_request_error "vulkan" "file_to_gpu" "GPU buffer handle is null"
            req EINVAL],
         [])) ∧
    (req.gpu_buffer = Ptr.null →
      handle_gpu_to_file req env =
        ({ req with status := RequestStatus.ioError, errno_value := EINVAL },
         [report_request_error "vulkan" "gpu_to_file" "GPU buffer handle is null"
            req EINVAL],
         [])) := by
  constructor
  · intro h
    simp [handle_file_to_gpu, h]
  · intro h
    simp [handle_gpu_to_file, h]

/-- C10 witness: the concrete null-handle read and write requests are
rejected with the empty step trace. -/
theorem c10_null_gpu_buffer_rejected_witness :
    handle_file_to_gpu nullGpuReadRequest {} =
      ({ nullGpuReadRequest with
          status := RequestStatus.ioError, errno_value := EINVAL },
       [report_request_error "vulkan" "file_to_gpu" "GPU buffer handle is null"
          nullGpuReadRequest EINVAL],
       []) ∧
    handle_gpu_to_file nullGpuWriteRequest {} =
      ({ nullGpuWriteRequest with
          status := RequestStatus.ioError, errno_value := EINVAL },
       [report_request_error "vulkan" "gpu_to_file" "GPU buffer handle is null"
          nullGpuWriteRequest EINVAL],
       []) :=
  ⟨(c10_null_gpu_buffer_rejected nullGpuReadRequest {}).1 rfl,
   (c10_null_gpu_buffer_rejected nullGpuWriteRequest {}).2 rfl⟩

/-- C2: the CPU backend validates in order: negative fd gives EBADF; then
size zero gives EINVAL; then a Read with a null destination gives EINVAL;
then a Write with a null source gives EINVAL; then a GPU memory side (GPU
destination on a Read or GPU source on a Write) gives EINVAL. Each
violation reports a single diagnostic and completes the request with
IoError and that errno, and the first failing check decides the errno
regardless of later checks. -/
theorem c2_cpu_validation_order (r : Request) (res : Outcome)
    (buf : List Nat) :
    (r.fd < 0 →
      cpuJob r res buf =
        ({ r with status := RequestStatus.ioError, errno_value := EBADF }, buf,
         [report_request_error "cpu" "submit" "Invalid file descriptor" r
            EBADF])) ∧
    (0 ≤ r.fd → r.size = 0 →
      cpuJob r res buf =
        ({ r with status := RequestStatus.ioError, errno_value := EINVAL }, buf,
         [report_request_error "cpu" "submit" "Zero-length request is not allowed"
            r EINVAL])) ∧
    (0 ≤ r.fd → r.size ≠ 0 → r.op = RequestOp.read → r.dst = Ptr.null →
      cpuJob r res buf =
        ({ r with status := RequestStatus.ioError, errno_value := EINVAL }, buf,
         [report_request_error "cpu" "submit"
            "Read request missing destination buffer" r EINVAL])) ∧
    (0 ≤ r.fd → r.size ≠ 0 → r.op = RequestOp.write → r.src = Ptr.null →
      cpuJob r res buf =
        ({ r with status := RequestStatus.ioError, errno_value := EINVAL }, buf,
         [report_request_error "cpu" "submit"
            "Write request missing source buffer" r EINVAL])) ∧
    (0 ≤ r.fd → r.size ≠ 0 →
      ¬(r.op = RequestOp.read ∧ r.dst = Ptr.null) →
      ¬(r.op = RequestOp.write ∧ r.src = Ptr.null) →
      ((r.op = RequestOp.read ∧ r.dst_memory = RequestMemory.gpu) ∨
        (r.op = RequestOp.write ∧ r.src_memory = RequestMemory.gpu)) →
      cpuJob r res buf =
        ({ r with status := RequestStatus.ioError, errno_value := EINVAL }, buf,
         [report_request_error "cpu" "submit" "GPU memory requested on CPU backend"
            r EINVAL])) := by
  have hjob : ∀ (e : Int) (ctx : ErrorContext), cpuValidate r = some (e, ctx) →
      cpuJob r res buf =
        ({ r with status := RequestStatus.ioError, errno_value := e }, buf,
         [ctx]) := by
    intro e ctx h
    simp [cpuJob, h]
  refine ⟨?_, ?_, ?_, ?_, ?_⟩
  · intro h
    exact hjob _ _ (by simp [cpuValidate, h])
  · intro h0 h1
    exact hjob _ _ (by simp [cpuValidate, Int.not_lt.mpr h0, h1])
  · intro h0 h1 h2 h3
    exact hjob _ _ (by simp [cpuValidate, Int.not_lt.mpr h0, h1, h2, h3])
  · intro h0 h1 h2 h3
    exact hjob _ _ (by simp [cpuValidate, Int.not_lt.mpr h0, h1, h2, h3])
  · intro h0 h1 h2 h3 h4
    exact hjob _ _ (by simp [cpuValidate, Int.not_lt.mpr h0, h1, h2, h3, h4])

/-- C2 witness: the default request violates both the fd check and the
size check; the earlier check wins and the request completes with EBADF. -/
theorem c2_cpu_validation_order_witness :
    cpuJob defaultRequest (Outcome.ok []) [] =
      ({ defaultRequest with
          status := RequestStatus.ioError, errno_value := EBADF },
       [],
       [report_request_error "cpu" "submit" "Invalid file descriptor"
          defaultRequest EBADF]) :=
  (c2_cpu_validation_order defaultRequest (Outcome.ok []) []).1 (by decide)

/-- C4: the GPU-staging backend validates exactly as the CPU backend
before routing: negative fd gives EBADF, zero size gives EINVAL, a missing
host buffer gives EINVAL, each with a diagnostic and the ordering of the
CPU chain; the symmetric rules let GPU memory sides pass validation, and
on host-only requests the validator agrees check-for-check with the CPU
validator. If the internal device or physical device is not initialized,
the request completes with IoError and errno EINVAL. -/
theorem c4_vulkan_validation (r : Request) (env : VkEnv) :
    (r.fd < 0 →
      vulkanJob r env =
        ({ r with status := RequestStatus.ioError, errno_value := EBADF },
         [report_request_error "vulkan" "submit" "Invalid file descriptor" r
            EBADF],
         [])) ∧
    (0 ≤ r.fd → r.size = 0 →
      vulkanJob r env =
        ({ r with status := RequestStatus.ioError, errno_value := EINVAL },
         [report_request_error "vulkan" "submit"
            "Zero-length request is not allowed" r EINVAL],
         [])) ∧
    (0 ≤ r.fd → r.size ≠ 0 → r.op = RequestOp.read →
      r.dst_memory = RequestMemory.host → r.dst = Ptr.null →
      vulkanJob r env =
        ({ r with status := RequestStatus.ioError, errno_value := EINVAL },
         [report_request_error "vulkan" "submit"
            "Read request missing destination buffer" r EINVAL],
         [])) ∧
    (0 ≤ r.fd → r.size ≠ 0 → r.op = RequestOp.write →
      r.src_memory = RequestMemory.host → r.src = Ptr.null →
      vulkanJob r env =
        ({ r with status := RequestStatus.ioError, errno_value := EINVAL },
         [report_request_error "vulkan" "submit"
            "Write request missing source buffer" r EINVAL],
         [])) ∧
    (0 ≤ r.fd → r.size ≠ 0 → r.op = RequestOp.read →
      r.dst_memory = RequestMemory.gpu → vulkanValidate r = none) ∧
    (0 ≤ r.fd → r.size ≠ 0 → r.op = RequestOp.write →
      r.src_memory = RequestMemory.gpu → vulkanValidate r = none) ∧
    (r.dst_memory = RequestMemory.host → r.src_memory = RequestMemory.host →
      (vulkanValidate r).map Prod.fst = (cpuValidate r).map Prod.fst) ∧
    (vulkanValidate r = none → env.deviceOk = false →
      vulkanJob r env =
        ({ r with status := RequestStatus.ioError, errno_value := EINVAL },
         [report_request_error "vulkan" "handle_request"
            "Vulkan device not initialized" r EINVAL],
         [])) := by
  have hjob : ∀ (e : Int) (ctx : ErrorContext), vulkanValidate r = some (e, ctx) →
      vulkanJob r env =
        ({ r with status := RequestStatus.ioError, errno_value := e },
         [ctx], []) := by
    intro e ctx h
    simp [vulkanJob, h]
  refine ⟨?_, ?_, ?_, ?_, ?_, ?_, ?_, ?_⟩
  · intro h
    exact hjob _ _ (by simp [vulkanValidate, h])
  · intro h0 h1
    exact hjob _ _ (by simp [vulkanValidate, Int.not_lt.mpr h0, h1])
  · intro h0 h1 h2 h3 h4
    exact hjob _ _ (by simp [vulkanValidate, Int.not_lt.mpr h0, h1, h2, h3, h4])
  · intro h0 h1 h2 h3 h4
    exact hjob _ _ (by simp [vulkanValidate, Int.not_lt.mpr h0, h1, h2, h3, h4])
  · intro h0 h1 h2 h3
    simp [vulkanValidate, Int.not_lt.mpr h0, h1, h2, h3]
  · intro h0 h1 h2 h3
    simp [vulkanValidate, Int.not_lt.mpr h0, h1, h2, h3]
  · intro hd hs
    unfold vulkanValidate cpuValidate
    simp only [hd, hs]
    split_ifs <;> simp_all
  · intro hv hd
    simp [vulkanJob, hv, vulkan_handle_request, hd]

/-- C4 witness: a read into GPU memory with a null host pointer passes
validation (the symmetric rule), and on the host-only default request the
two validators agree. -/
theorem c4_vulkan_validation_witness :
    vulkanValidate fileToGpuRequest = none ∧
    (vulkanValidate defaultRequest).map Prod.fst
      = (cpuValidate defaultRequest).map Prod.fst :=
  ⟨(c4_vulkan_validation fileToGpuRequest {}).2.2.2.2.1 (by decide) (by decide)
      rfl rfl,
   (c4_vulkan_validation defaultRequest {}).2.2.2.2.2.2.1 rfl rfl⟩

/-- The errno constants the backends complete failures with are nonzero. -/
theorem EBADF_ne : EBADF ≠ 0 := by decide

theorem EINVAL_ne : EINVAL ≠ 0 := by decide

theorem ENOMEM_ne : ENOMEM ≠ 0 := by decide

theorem EIO_ne : EIO ≠ 0 := by decide

theorem EBUSY_ne : EBUSY ≠ 0 := by decide

theorem ENOTSUP_ne : ENOTSUP ≠ 0 := by decide

/-- The request an I/O-stage success produces. -/
theorem cpuIoStage_ok_fst (r : Request) (data : List Nat) (buf : List Nat) :
    (cpuIoStage r (Outcome.ok data) buf).1 =
      { r with
        status := RequestStatus.ok, errno_value := 0,
        bytes_transferred := data.length } := by
  unfold cpuIoStage
  by_cases hop : r.op = RequestOp.read <;> simp [hop]

/-- Every completed CPU request satisfies the result invariant, given a
POSIX-conformant syscall outcome and a fresh (zero) bytes_transferred. -/
theorem cpuJob_invariant (r : Request) (res : Outcome) (buf : List Nat)
    (hb : r.bytes_transferred = 0) (hp : posixOk r res) :
    resultInvariant (cpuJob r res buf).1 := by
  rcases hv : cpuValidate r with _ | ⟨e, ctx⟩
  · rcases res with data | e
    · have h1 : (cpuJob r (Outcome.ok data) buf).1
          = (cpuIoStage r (Outcome.ok data) buf).1 := by
        simp [cpuJob, hv]
      rw [h1, cpuIoStage_ok_fst]
      exact resultInvariant_ok rfl rfl hp
    · have h1 : (cpuJob r (Outcome.err e) buf).1
          = (cpuIoStage r (Outcome.err e) buf).1 := by
        simp [cpuJob, hv]
      rw [h1]
      exact resultInvariant_ioError rfl rfl hp.ne'
  · have h1 : (cpuJob r res buf).1
        = { r with status := RequestStatus.ioError, errno_value := e } := by
      simp [cpuJob, hv]
    rw [h1]
    rcases cpuValidate_errno hv with he | he <;> subst he
    · exact resultInvariant_ioError rfl hb EBADF_ne
    · exact resultInvariant_ioError rfl hb EINVAL_ne

/-- Every request the io_uring submit path completes on the spot
satisfies the result invariant. -/
theorem uringSubmit_done_invariant (initFailed : Bool) (r r2 : Request)
    (ctx : ErrorContext)
    (h : uringSubmit initFailed r = UringSubmitResult.done r2 ctx) :
    resultInvariant r2 := by
  unfold uringSubmit at h
  split_ifs at h <;> injection h with h1 h2 <;> subst h1 <;>
    first
    | exact resultInvariant_ioError rfl rfl EINVAL_ne
    | exact resultInvariant_ioError rfl rfl ENOTSUP_ne

/-- Every request completed through the io_uring CQE mapping satisfies
the result invariant, given the kernel moves at most `size` bytes. -/
theorem uringCqe_invariant (r : Request) (res : Int)
    (h : res ≤ (r.size : Int)) :
    resultInvariant (uringCqeComplete r res) := by
  unfold uringCqeComplete
  by_cases hneg : res < 0
  · simp only [if_pos hneg]
    exact resultInvariant_ioError rfl rfl (by show -res ≠ (0 : Int); omega)
  · simp only [if_neg hneg]
    exact resultInvariant_ok rfl rfl (by show res.toNat ≤ r.size; omega)

/-- Every request completed through the Vulkan File-to-GPU handler
satisfies the result invariant. -/
theorem handle_file_to_gpu_invariant (r : Request) (env : VkEnv)
    (hb : r.bytes_transferred = 0) (hr : sysOk env.hostRead) :
    resultInvariant (handle_file_to_gpu r env).1 := by
  by_cases hg : r.gpu_buffer = Ptr.null
  · simp only [handle_file_to_gpu, if_pos hg]
    exact resultInvariant_ioError rfl hb EINVAL_ne
  · cases hsb : (create_staging_buffer env.staging).1 with
    | false =>
        simp only [handle_file_to_gpu, if_neg hg, hsb]
        exact resultInvariant_ioError rfl hb ENOMEM_ne
    | true =>
        cases hm : env.mapOk with
        | false =>
            simp only [handle_file_to_gpu, if_neg hg, hsb, hm]
            exact resultInvariant_ioError rfl hb EIO_ne
        | true =>
            rcases he : env.hostRead with n | e
            · cases hsc : (submit_copy env.copy).1 with
              | false =>
                  simp only [handle_file_to_gpu, if_neg hg, hsb, hm, he, hsc]
                  exact resultInvariant_ioError rfl hb EIO_ne
              | true =>
                  simp only [handle_file_to_gpu, if_neg hg, hsb, hm, he, hsc]
                  exact resultInvariant_ok rfl rfl
                    (by show r.bytes_transferred ≤ r.size; omega)
            · rw [he] at hr
              simp only [handle_file_to_gpu, if_neg hg, hsb, hm, he]
              exact resultInvariant_ioError rfl hb hr.ne'

/-- Every request completed through the Vulkan GPU-to-File handler
satisfies the result invariant. -/
theorem handle_gpu_to_file_invariant (r : Request) (env : VkEnv)
    (hb : r.bytes_transferred = 0) (hw : sysOk env.hostWrite) :
    resultInvariant (handle_gpu_to_file r env).1 := by
  by_cases hg : r.gpu_buffer = Ptr.null
  · simp only [handle_gpu_to_file, if_pos hg]
    exact resultInvariant_ioError rfl hb EINVAL_ne
  · cases hsb : (create_staging_buffer env.staging).1 with
    | false =>
        simp only [handle_gpu_to_file, if_neg hg, hsb]
        exact resultInvariant_ioError rfl hb ENOMEM_ne
    | true =>
        cases hsc : (submit_copy env.copy).1 with
        | false =>
            simp only [handle_gpu_to_file, if_neg hg, hsb, hsc]
            exact resultInvariant_ioError rfl hb EIO_ne
        | true =>
            cases hm : env.mapOk with
            | false =>
                simp only [handle_gpu_to_file, if_neg hg, hsb, hsc, hm]
                exact resultInvariant_ioError rfl hb EIO_ne
            | true =>
                rcases he : env.hostWrite with n | e
                · simp only [handle_gpu_to_file, if_neg hg, hsb, hsc, hm, he]
                  exact resultInvariant_ok rfl rfl
                    (by show r.bytes_transferred ≤ r.size; omega)
                · rw [he] at hw
                  simp only [handle_gpu_to_file, if_neg hg, hsb, hsc, hm, he]
                  exact resultInvariant_ioError rfl hb hw.ne'

/-- Every request completed through the Vulkan host-only path satisfies
the result invariant. -/
theorem handle_host_io_invariant (r : Request) (env : VkEnv)
    (hb : r.bytes_transferred = 0) (hr : sysOk env.hostRead)
    (hw : sysOk env.hostWrite) :
    resultInvariant (handle_host_io r env).1 := by
  by_cases hop : r.op = RequestOp.write
  · rcases he : env.hostWrite with n | e
    · simp only [handle_host_io, hop, he]
      exact resultInvariant_ok rfl rfl
        (by show r.bytes_transferred ≤ r.size; omega)
    · rw [he] at hw
      simp only [handle_host_io, hop, he]
      exact resultInvariant_ioError rfl hb hw.ne'
  · rcases he : env.hostRead with n | e
    · simp only [handle_host_io, hop, he]
      exact resultInvariant_ok rfl rfl
        (by show r.bytes_transferred ≤ r.size; omega)
    · rw [he] at hr
      simp only [handle_host_io, hop, he]
      exact resultInvariant_ioError rfl hb hr.ne'

/-- Every request completed by the whole Vulkan job satisfies the result
invariant. -/
theorem vulkanJob_invariant (r : Request) (env : VkEnv)
    (hb : r.bytes_transferred = 0) (hr : sysOk env.hostRead)
    (hw : sysOk env.hostWrite) :
    resultInvariant (vulkanJob r env).1 := by
  rcases hv : vulkanValidate r with _ | ⟨e, ctx⟩
  · have h1 : vulkanJob r env = vulkan_handle_request r env := by
      simp [vulkanJob, hv]
    rw [h1]
    unfold vulkan_handle_request
    by_cases hd : env.deviceOk
    · rw [if_neg (by simp [hd])]
      by_cases h2 : r.op = RequestOp.write ∧ r.src_memory = RequestMemory.gpu
      · rw [if_pos h2]
        exact handle_gpu_to_file_invariant r env hb hw
      · rw [if_neg h2]
        by_cases h3 : r.op = RequestOp.read ∧ r.dst_memory = RequestMemory.gpu
        · rw [if_pos h3]
          exact handle_file_to_gpu_invariant r env hb hr
        · rw [if_neg h3]
          exact handle_host_io_invariant r env hb hr hw
    · rw [if_pos (by simp [hd])]
      exact resultInvariant_ioError rfl hb EINVAL_ne
  · have h1 : (vulkanJob r env).1
        = { r with status := RequestStatus.ioError, errno_value := e } := by
      simp [vulkanJob, hv]
    rw [h1]
    rcases vulkanValidate_errno hv with he | he <;> subst he
    · exact resultInvariant_ioError rfl hb EBADF_ne
    · exact resultInvariant_ioError rfl hb EINVAL_ne

/-- C3: for every request completed by any backend (CPU, ring or
GPU-staging), if the final status is Ok then errno_value is zero and
bytes_transferred is at most size; if the final status is IoError then
bytes_transferred is zero and errno_value is nonzero. The hypotheses state
the POSIX contract of the syscalls (at most the requested bytes on
success, a positive errno on failure) and that the submitted request
carries the fresh zero bytes_transferred of the request lifecycle. -/
theorem c3_completed_request_invariant :
    (∀ (r : Request) (res : Outcome) (buf : List Nat),
      r.bytes_transferred = 0 → posixOk r res →
      resultInvariant (cpuJob r res buf).1) ∧
    (∀ (initFailed : Bool) (r r2 : Request) (ctx : ErrorContext),
      uringSubmit initFailed r = UringSubmitResult.done r2 ctx →
      resultInvariant r2) ∧
    (∀ r : Request, resultInvariant (uringSqeExhausted r).1) ∧
    (∀ (r : Request) (res : Int), res ≤ (r.size : Int) →
      resultInvariant (uringCqeComplete r res)) ∧
    (∀ (r : Request) (env : VkEnv), r.bytes_transferred = 0 →
      sysOk env.hostRead → sysOk env.hostWrite →
      resultInvariant (vulkanJob r env).1) := by
  refine ⟨?_, ?_, ?_, ?_, ?_⟩
  · intro r res buf hb hp
    exact cpuJob_invariant r res buf hb hp
  · intro initFailed r r2 ctx h
    exact uringSubmit_done_invariant initFailed r r2 ctx h
  · intro r
    exact resultInvariant_ioError rfl rfl EBUSY_ne
  · intro r res h
    exact uringCqe_invariant r res h
  · intro r env hb hr hw
    exact vulkanJob_invariant r env hb hr hw

/-- C3 witness: the invariant holds on a concrete successful CPU read and
on a concrete Vulkan job. -/
theorem c3_completed_request_invariant_witness :
    resultInvariant (cpuJob hostReadRequest (Outcome.ok [1, 2]) [0, 0]).1 ∧
    resultInvariant (vulkanJob fileToGpuRequest {}).1 :=
  ⟨c3_completed_request_invariant.1 hostReadRequest (Outcome.ok [1, 2]) [0, 0]
      rfl (by show [1, 2].length ≤ hostReadRequest.size; decide),
   c3_completed_request_invariant.2.2.2.2 fileToGpuRequest {} rfl trivial
     trivial⟩

/-- Characterization of the FakeUppercase loop: writing `k` for the index
of the first NUL byte (the length of the buffer's nonzero prefix), the
loop uppercases exactly the first `min n k` bytes, in place and in order,
and leaves the rest of the buffer unchanged. -/
theorem applyUpper_eq (buf : List Nat) : ∀ n : Nat,
    applyUpper n buf =
      (buf.take (min n (buf.takeWhile (fun b => b != 0)).length)).map toUpperByte
        ++ buf.drop (min n (buf.takeWhile (fun b => b != 0)).length) := by
  induction buf with
  | nil =>
      intro n
      cases n <;> simp [applyUpper]
  | cons b rest ih =>
      intro n
      cases n with
      | zero => simp [applyUpper]
      | succ n =>
          by_cases hb : b = 0
          · subst hb
            simp [applyUpper, List.takeWhile_cons]
          · simp only [applyUpper, if_neg hb, List.takeWhile_cons,
              show (b != 0) = true from by simpa using hb, if_pos,
              List.length_cons, Nat.succ_min_succ, List.take_succ_cons,
              List.map_cons, List.drop_succ_cons, List.cons_append,
              List.cons.injEq, true_and]
            exact ih n

/-- C7: on the CPU backend the demo transform uppercases each byte of the
destination buffer at indices [0, size) in order, stopping at the first
NUL byte, and applies only to Read requests that completed Ok with the
transform requested; in particular a full 14-byte read of
"lowercase text" with size 14 and the transform yields the buffer
"LOWERCASE TEXT", status Ok and 14 bytes transferred. -/
theorem c7_demo_transform (n : Nat) (buf : List Nat) (r : Request) :
    (applyUpper n buf =
      (buf.take (min n (buf.takeWhile (fun b => b != 0)).length)).map toUpperByte
        ++ buf.drop (min n (buf.takeWhile (fun b => b != 0)).length)) ∧
    (r.op ≠ RequestOp.read ∨ r.status ≠ RequestStatus.ok ∨
        r.compression ≠ Compression.fakeUppercase →
      transformStage r buf = buf) ∧
    (r.op = RequestOp.read → r.status = RequestStatus.ok →
      r.compression = Compression.fakeUppercase →
      transformStage r buf = applyUpper r.size buf) ∧
    ((cpuJob demoReadRequest (Outcome.ok (preadData lowercaseText 0 14))
        (List.replicate 14 0)).2.1 = uppercaseText ∧
      (cpuJob demoReadRequest (Outcome.ok (preadData lowercaseText 0 14))
        (List.replicate 14 0)).1.status = RequestStatus.ok ∧
      (cpuJob demoReadRequest (Outcome.ok (preadData lowercaseText 0 14))
        (List.replicate 14 0)).1.bytes_transferred = 14 ∧
      lowercaseText.length = 14) := by
  refine ⟨applyUpper_eq buf n, ?_, ?_, by decide⟩
  · intro h
    unfold transformStage
    rw [if_neg]
    rintro ⟨h1, h2, h3⟩
    rcases h with h | h | h
    · exact h h1
    · exact h h2
    · exact h h3
  · intro h1 h2 h3
    simp [transformStage, h1, h2, h3]

/-- C7 witness: the transform leaves the buffer of a request that did not
complete Ok unchanged. -/
theorem c7_demo_transform_witness :
    transformStage defaultRequest [97] = [97] :=
  (c7_demo_transform 0 [97] defaultRequest).2.1
    (Or.inr (Or.inl (by decide)))

end DsRuntime
